import Mathlib

/-!
Shallow embedding of the IT-Asset-Management backend
(backend/app/server.py, backend/app/routes/equipment.py,
backend/app/routes/users.py, backend/app/routes/auth.py).

JSON dictionaries coming from the client are modelled with
`Option (Option α)` fields: the outer `Option` says whether the key is
present in the payload, the inner one whether its value is `null`.
Records read back from the document store are modelled with `Option α`
fields (absent and `null` collapse, exactly as Python `dict.get` does).
Python truthiness of an optional string (`None` and `""` are falsy) is
`jtruthy`.  HTTP failures are `HErr` values carried in `Except`; when a
route returns an error the caller's collection is unchanged, so the
state-returning functions only produce a new collection on success.
-/

namespace ITAM

/-- An HTTP error response: status code plus detail string
(`raise HTTPException(status_code=..., detail=...)`). -/
structure HErr where
  status : Nat
  detail : String
  deriving DecidableEq, Repr

/-- Value of `d.get(k)` for a JSON payload field: collapse an absent key
and an explicit `null` to `none`. -/
def jget (o : Option (Option String)) : Option String :=
  o.getD none

/-- Python truthiness of a payload field: present, non-null and non-empty. -/
def jtruthy (o : Option (Option String)) : Bool :=
  match o with
  | some (some s) => s ≠ ""
  | _ => false

/-- `$set` semantics for one field: a key present in the update payload
overwrites the stored value (possibly with `null`); an absent key leaves it. -/
def setField {α : Type} (old : Option α) (upd : Option (Option α)) : Option α :=
  match upd with
  | none => old
  | some v => v

/-! ### server.py `update_equipment` (lines 285-324): assignment notification -/

/-- The part of a stored equipment document read by the notification
predicate in `server.py` (`orig.get('status')`, `orig.get('assigneeName')`). -/
structure EqRecord where
  status : Option String
  assigneeName : Option String
  deriving DecidableEq, Repr

/-- The part of the raw `PUT /api/equipment/{id}` JSON body read by the
notification predicate and merged by `$set`. -/
structure EqUpdate where
  status : Option (Option String)
  assigneeName : Option (Option String)
  employeeEmail : Option (Option String)
  deriving DecidableEq, Repr

/-- `server.py` lines 301-304:
`update.get('status') == 'In Use' and update.get('assigneeName') and
update.get('employeeEmail') and (orig.get('status') != 'In Use' or
orig.get('assigneeName') != update.get('assigneeName'))`. -/
def is_new_assignment (orig : EqRecord) (u : EqUpdate) : Bool :=
  (jget u.status == some "In Use") && jtruthy u.assigneeName && jtruthy u.employeeEmail &&
    (!(orig.status == some "In Use") || !(orig.assigneeName == jget u.assigneeName))

/-- Effect of `equipments.update_one({'_id': ...}, {'$set': update})` on the
fields the predicate reads: supplied keys overwrite, absent keys persist. -/
def applyUpdate (r : EqRecord) (u : EqUpdate) : EqRecord :=
  { status := setField r.status u.status
    assigneeName := setField r.assigneeName u.assigneeName }

/-- The side-effecting steps the background task can attempt. -/
inductive BgOp
  | render
  | send
  | remove
  deriving DecidableEq, Repr

/-- Outcome environment for the background task: whether PDF rendering, the
SMTP send and the temp-file removal would each succeed if attempted. -/
structure BgEnv where
  renderOk : Bool
  sendOk : Bool
  removeOk : Bool
  deriving DecidableEq, Repr

/-- `server.py` lines 307-320 (`bg_task`): one outer `try/except: pass`
around PDF generation; the email send and the file removal each sit inside
their own `try/except: pass`.  If rendering raises, the send and removal are
never reached and the outer handler swallows the exception; if the send or
the removal raises, its own handler swallows it.  Returns whether an
exception escapes to the task runner, and the list of operations attempted
in order (none is ever attempted twice — there is no retry). -/
def bg_task (env : BgEnv) : Bool × List BgOp :=
  if env.renderOk then
    (false, [BgOp.render, BgOp.send, BgOp.remove])
  else
    (false, [BgOp.render])

/-- `server.py update_equipment` after role check and `$set`: 404 when the
record is absent, otherwise the updated record is returned; when the
notification predicate fires, the background task is dispatched and its
outcome accompanies (but never replaces) the HTTP response. -/
def update_equipment_handler (orig : Option EqRecord) (u : EqUpdate) (env : BgEnv) :
    Except HErr EqRecord × Bool × List BgOp :=
  match orig with
  | none => (.error ⟨404, "Equipment not found"⟩, false, [])
  | some o =>
    if is_new_assignment o u then
      (.ok (applyUpdate o u), (bg_task env).1, (bg_task env).2)
    else
      (.ok (applyUpdate o u), false, [])

/-! ### routes/equipment.py: status enum, partial update, create -/

/-- `EquipmentStatus` enum from models.py. -/
inductive EqStatus
  | inUse
  | inStock
  | damaged
  | eWaste
  | removed
  deriving DecidableEq, Repr

/-- The fields of a stored equipment document read by the damage-clearing
logic of `routes/equipment.py update_equipment`. -/
structure EqRecD where
  status : Option EqStatus
  damageDescription : Option String
  deriving DecidableEq, Repr

/-- `EquipmentUpdate.dict(exclude_unset=True)` restricted to the fields the
damage-clearing logic touches: outer `Option` = key supplied, inner = value. -/
structure EqUpdD where
  status : Option (Option EqStatus)
  damageDescription : Option (Option String)
  deriving DecidableEq, Repr

/-- `routes/equipment.py` lines 193-195: if the update supplies a non-null
status different from "Damaged", force `damageDescription` to `null` in the
update document; otherwise leave the update document as supplied. -/
def clear_damage (ud : EqUpdD) : EqUpdD :=
  match ud.status with
  | some (some s) =>
    if s ≠ EqStatus.damaged then { ud with damageDescription := some none } else ud
  | _ => ud

/-- `routes/equipment.py update_equipment` effect on the stored document:
`$set` of the (damage-cleared) update document over the existing record. -/
def apply_equipment_update (r : EqRecD) (ud : EqUpdD) : EqRecD :=
  { status := setField r.status (clear_damage ud).status
    damageDescription := setField r.damageDescription (clear_damage ud).damageDescription }

/-- Authenticated user claims carried by the session token: id and role. -/
structure AuthUser where
  id : String
  role : String
  deriving DecidableEq, Repr

/-- `check_role`: true iff the user's role is among the allowed roles. -/
def check_role (u : AuthUser) (allowed : List String) : Bool :=
  allowed.contains u.role

/-- The fields of a stored equipment document that `create_equipment` and the
duplicate-serial check use. -/
structure EqDoc where
  assetId : String
  category : String
  status : EqStatus
  serialNumber : Option String
  isDeleted : Bool
  deriving DecidableEq, Repr

/-- The `EquipmentCreate` payload fields used by `create_equipment`. -/
structure EqCreate where
  category : String
  status : EqStatus
  serialNumber : Option String
  deriving DecidableEq, Repr

/-- Python `str.zfill(w)`: left-pad with zeros to at least width `w`. -/
def zfill (w : Nat) (s : String) : String :=
  String.mk (List.replicate (w - s.length) (Char.ofNat 48)) ++ s

/-- ASCII uppercase of one character (Python `str.upper` on ASCII input). -/
def upChar (c : Char) : Char :=
  if 97 ≤ c.toNat ∧ c.toNat ≤ 122 then Char.ofNat (c.toNat - 32) else c

/-- `s[:3].upper()`: first three characters, uppercased. -/
def upper3 (s : String) : String :=
  String.mk ((s.data.take 3).map upChar)

/-- `s[-n:]`: the last `n` characters of `s`. -/
def lastChars (n : Nat) (s : String) : String :=
  String.mk (s.data.drop (s.data.length - n))

/-- `category[:3].upper() if category else "OTH"` (line 118). -/
def prefixPart (category : String) : String :=
  if category ≠ "" then upper3 category else "OTH"

/-- Line 120: asset id built from the category prefix, the category count
plus one zero-filled to width 3, and the last five characters of
`str(datetime.now().timestamp())` (passed in as `ts`). -/
def gen_asset_id (category : String) (count : Nat) (ts : String) : String :=
  prefixPart category ++ "-" ++ zfill 3 (toString (count + 1)) ++ "-" ++ lastChars 5 ts

/-- The asset-tag format as the spec words it (first three letters of the
category uppercased, no fallback for an empty category); stated only to be
compared with `gen_asset_id`. -/
def specAssetTag (category : String) (count : Nat) (ts : String) : String :=
  upper3 category ++ "-" ++ zfill 3 (toString (count + 1)) ++ "-" ++ lastChars 5 ts

/-- `count_documents({"category": c})`: all records of the category, the
soft-deleted ones included. -/
def countCat (db : List EqDoc) (c : String) : Nat :=
  (db.filter (fun r => r.category == c)).length

/-- Lines 122-126: a conflict exists iff the payload's serial number is
truthy and `find_one({"serialNumber": s})` (no isDeleted filter) matches. -/
def serialConflict (sn : Option String) (db : List EqDoc) : Bool :=
  match sn with
  | some s => (s != "") && db.any (fun r => r.serialNumber == some s)
  | none => false

/-- `routes/equipment.py create_equipment` (lines 103-151), after
authentication: role check, asset-id generation, duplicate-serial check,
insert.  On success returns the created document and the new collection; on
error the collection the caller holds is untouched. -/
def create_equipment (user : AuthUser) (eq : EqCreate) (db : List EqDoc)
    (ts : String) : Except HErr (EqDoc × List EqDoc) :=
  if ¬ check_role user ["Admin", "Editor"] then
    .error ⟨403, "Access denied. Insufficient role."⟩
  else
    let doc : EqDoc :=
      { assetId := gen_asset_id eq.category (countCat db eq.category) ts
        category := eq.category
        status := eq.status
        serialNumber := eq.serialNumber
        isDeleted := false }
    if serialConflict eq.serialNumber db then
      .error ⟨400, "Serial Number already exists. Please use a unique serial number."⟩
    else
      .ok (doc, db ++ [doc])

/-! ### routes/users.py: delete_user and update_user -/

/-- A stored user document: fields written by user creation and update. -/
structure StoredUser where
  name : Option String
  email : Option String
  password : Option String
  role : Option String
  deriving DecidableEq, Repr

/-- The users collection, keyed by the stringified ObjectId. -/
abbrev UsersDB := List (String × StoredUser)

/-- Hexadecimal digit (either case). -/
def isHexDigit (c : Char) : Bool :=
  c.isDigit || (decide (97 ≤ c.toNat) && decide (c.toNat ≤ 102)) ||
    (decide (65 ≤ c.toNat) && decide (c.toNat ≤ 70))

/-- `ObjectId.is_valid` on a string: exactly 24 hex characters. -/
def isValidObjectId (s : String) : Bool :=
  (s.length == 24) && s.data.all isHexDigit

/-- `find_one({"_id": uid})` over the users collection. -/
def lookupEntry (db : UsersDB) (uid : String) : Option StoredUser :=
  match db with
  | [] => none
  | (i, u) :: t => if i = uid then some u else lookupEntry t uid

/-- `routes/users.py delete_user` (lines 129-155), after authentication:
admin check, self-delete check, ObjectId check, `delete_one`; 404 when
nothing was deleted.  Ids are unique, so deleting every entry with the id
models `delete_one`. -/
def delete_user (cu : AuthUser) (uid : String) (db : UsersDB) : Except HErr UsersDB :=
  if cu.role ≠ "Admin" then
    .error ⟨403, "Access denied. Admin role required."⟩
  else if uid = cu.id then
    .error ⟨400, "Cannot delete your own account"⟩
  else if ¬ isValidObjectId uid then
    .error ⟨400, "Invalid user ID"⟩
  else
    let db2 := db.filter (fun e => e.1 != uid)
    if db2.length = db.length then .error ⟨404, "User not found"⟩ else .ok db2

/-- `UserUpdate.dict(exclude_unset=True)`: outer `Option` = key supplied in
the request body, inner `Option` = its value or `null`. -/
structure UserUpd where
  name : Option (Option String)
  email : Option (Option String)
  password : Option (Option String)
  role : Option (Option String)
  deriving DecidableEq, Repr

/-- The update document actually passed to `$set` (same shape as the
payload, after the password has been hashed or popped). -/
structure UpdateDoc where
  name : Option (Option String)
  email : Option (Option String)
  password : Option (Option String)
  role : Option (Option String)
  deriving DecidableEq, Repr

/-- `routes/users.py` lines 93-101: keep the supplied name/email/role
entries; keep a password entry only when one was supplied and truthy, in
which case it is replaced by its hash; otherwise pop it. -/
def buildUpdate (u : UserUpd) (hash : String → String) : UpdateDoc :=
  { name := u.name
    email := u.email
    role := u.role
    password :=
      match u.password with
      | some (some p) => if p ≠ "" then some (some (hash p)) else none
      | _ => none }

/-- `$set` of the update document over a stored user. -/
def applyUserSet (su : StoredUser) (d : UpdateDoc) : StoredUser :=
  { name := setField su.name d.name
    email := setField su.email d.email
    password := setField su.password d.password
    role := setField su.role d.role }

/-- Lines 104-110: `find_one({"email": ev, "_id": {"$ne": uid}})` is
non-empty. -/
def emailClash (db : UsersDB) (uid : String) (ev : Option String) : Bool :=
  db.any (fun e => (e.1 != uid) && (e.2.email == ev))

/-- `update_one({"_id": uid}, {"$set": d})`: ids are unique, so mapping over
every matching entry models the single-document update. -/
def setUserIn (db : UsersDB) (uid : String) (d : UpdateDoc) : UsersDB :=
  db.map (fun e => if e.1 = uid then (e.1, applyUserSet e.2 d) else e)

/-- `routes/users.py update_user` (lines 70-127), after authentication:
admin check, ObjectId check, existence check, password hash-or-pop, email
uniqueness check, `$set`. -/
def update_user (cu : AuthUser) (uid : String) (u : UserUpd) (db : UsersDB)
    (hash : String → String) : Except HErr UsersDB :=
  if cu.role ≠ "Admin" then
    .error ⟨403, "Access denied. Admin role required."⟩
  else if ¬ isValidObjectId uid then
    .error ⟨400, "Invalid user ID"⟩
  else
    match lookupEntry db uid with
    | none => .error ⟨404, "User not found"⟩
    | some _ =>
      match (buildUpdate u hash).email with
      | some ev =>
        if emailClash db uid ev then
          .error ⟨400, "Email already in use"⟩
        else
          .ok (setUserIn db uid (buildUpdate u hash))
      | none => .ok (setUserIn db uid (buildUpdate u hash))

/-! ### routes/auth.py `reset_password` (lines 108-165) -/

/-- A reset-token entry: the email it was issued for and its expiry
instant (timestamps modelled as naturals). -/
structure TokenData where
  email : String
  expiry : Nat
  deriving DecidableEq, Repr

/-- A stored user as the reset flow sees it. -/
structure RUser where
  email : String
  password : String
  resetPasswordToken : Option String
  resetPasswordExpires : Option String
  deriving DecidableEq, Repr

/-- The process-wide state the reset flow touches: the in-memory
`reset_tokens` dict and the users collection. -/
structure RPState where
  tokens : String → Option TokenData
  users : List RUser

/-- `del reset_tokens[t]`. -/
def deleteTok (tk : String → Option TokenData) (t : String) :
    String → Option TokenData :=
  fun k => if k = t then none else tk k

/-- `find_one({"email": email})` over the users collection. -/
def findUser (us : List RUser) (email : String) : Option RUser :=
  match us with
  | [] => none
  | u :: t => if u.email = email then some u else findUser t email

/-- `update_one({"email": email}, {"$set": {password, resetPasswordToken:
None, resetPasswordExpires: None}})`: rewrites the first matching user. -/
def setPasswordByEmail (us : List RUser) (email hashed : String) : List RUser :=
  match us with
  | [] => []
  | u :: t =>
    if u.email = email then
      { u with
          password := hashed
          resetPasswordToken := none
          resetPasswordExpires := none } :: t
    else
      u :: setPasswordByEmail t email hashed

/-- `routes/auth.py reset_password`: unknown token -> 400 (state unchanged);
expired token -> deleted, then 400; email mismatch -> 400 (state unchanged);
unknown user -> 404 (state unchanged); otherwise the password is re-hashed
and stored and the token is deleted. -/
def reset_password (now : Nat) (email token newPw : String)
    (hash : String → String) (st : RPState) : Except HErr Unit × RPState :=
  match st.tokens token with
  | none => (.error ⟨400, "Invalid or expired reset token"⟩, st)
  | some td =>
    if td.expiry < now then
      (.error ⟨400, "Reset token has expired"⟩,
        { st with tokens := deleteTok st.tokens token })
    else if td.email ≠ email then
      (.error ⟨400, "Invalid token for this email address"⟩, st)
    else
      match findUser st.users email with
      | none => (.error ⟨404, "User not found"⟩, st)
      | some _ =>
        (.ok (),
          { tokens := deleteTok st.tokens token
            users := setPasswordByEmail st.users email (hash newPw) })

/-! ### user-facing response documents (password stripping) -/

/-- A response document: ordered key/value pairs of a JSON object. -/
abbrev Doc := List (String × String)

/-- First value bound to a key in a document. -/
def lookupKey (d : Doc) (k : String) : Option String :=
  match d with
  | [] => none
  | (k2, v) :: t => if k2 = k then some v else lookupKey t k

/-- `dict.pop(k, None)` / a find projection excluding `k`: drop the key. -/
def popKey (d : Doc) (k : String) : Doc :=
  d.filter (fun p => p.1 != k)

/-- `routes/users.py get_all_users` (lines 21-39) and `server.py list_users`
(lines 213-221): every stored user document is returned with its password
removed (popped, resp. excluded by the `{'password': 0}` projection). -/
def get_all_users (dbUsers : List Doc) : List Doc :=
  dbUsers.map (fun d => popKey d "password")

/-- `routes/users.py update_user` response (lines 122-127): the updated user
document with its password popped. -/
def update_user_response (updatedUser : Doc) : Doc :=
  popKey updatedUser "password"

/-- `routes/auth.py login` (lines 56-65): the user object placed in the
token payload and the response carries only id, email and role. -/
def login_user_data (u : Doc) : Doc :=
  [("id", (lookupKey u "_id").getD ""),
   ("email", (lookupKey u "email").getD ""),
   ("role", (lookupKey u "role").getD "")]

/-! ## Helper lemmas -/

/-- Popping a key removes every binding of that key. -/
theorem lookupKey_popKey (d : Doc) (k : String) :
    lookupKey (popKey d k) k = none := by
  induction d with
  | nil => rfl
  | cons p t ih =>
    by_cases h : p.1 = k
    · simpa [popKey, h] using ih
    · simpa [popKey, lookupKey, h] using ih

/-- A successful `reset_password` run deletes the token and stores the
re-hashed password. -/
theorem reset_password_ok_state (now : Nat) (email token newPw : String)
    (hash : String → String) (st : RPState)
    (h : (reset_password now email token newPw hash st).1 = .ok ()) :
    (reset_password now email token newPw hash st).2 =
      { tokens := deleteTok st.tokens token
        users := setPasswordByEmail st.users email (hash newPw) } := by
  cases hm : st.tokens token with
  | none => simp [reset_password, hm] at h
  | some td =>
    by_cases hexp : td.expiry < now
    · simp [reset_password, hm, hexp] at h
    · by_cases hem : td.email = email
      · cases hu : findUser st.users email with
        | none => simp [reset_password, hm, hexp, hem, hu] at h
        | some u => simp [reset_password, hm, hexp, hem, hu]
      · simp [reset_password, hm, hexp, hem] at h

/-- A token absent from the store is rejected as invalid or expired and the
state is untouched. -/
theorem reset_password_unknown (now : Nat) (email token newPw : String)
    (hash : String → String) (st : RPState) (h : st.tokens token = none) :
    reset_password now email token newPw hash st =
      (.error ⟨400, "Invalid or expired reset token"⟩, st) := by
  unfold reset_password
  rw [h]

/-- The id written by `setUserIn` is looked up to the updated user. -/
theorem lookupEntry_setUserIn (db : UsersDB) (uid : String) (d : UpdateDoc)
    (su : StoredUser) (h : lookupEntry db uid = some su) :
    lookupEntry (setUserIn db uid d) uid = some (applyUserSet su d) := by
  induction db with
  | nil => simp [lookupEntry] at h
  | cons e t ih =>
    obtain ⟨i, w⟩ := e
    by_cases hc : i = uid
    · subst hc
      simp [lookupEntry] at h
      subst h
      show lookupEntry ((if i = i then (i, applyUserSet w d) else (i, w)) :: setUserIn t i d) i = _
      rw [if_pos rfl]
      simp [lookupEntry]
    · simp [lookupEntry, hc] at h
      show lookupEntry ((if i = uid then (i, applyUserSet w d) else (i, w)) :: setUserIn t uid d) uid = _
      rw [if_neg hc]
      simpa [lookupEntry, hc] using ih h

/-! ## Claim theorems -/

/-- C1 -- The assignment-notification event fires iff the update payload's
status is "In Use", its assigneeName and employeeEmail are present and
non-empty, and the previous record's status is not "In Use" or its
assigneeName differs from the update's; and re-applying the identical
update to the record it produced does not fire again. -/
theorem claim1_assignment_edge (orig : EqRecord) (u : EqUpdate) :
    (is_new_assignment orig u = true ↔
      (jget u.status = some "In Use" ∧ jtruthy u.assigneeName = true ∧
        jtruthy u.employeeEmail = true ∧
        (orig.status ≠ some "In Use" ∨ orig.assigneeName ≠ jget u.assigneeName))) ∧
    (is_new_assignment orig u = true →
      is_new_assignment (applyUpdate orig u) u = false) := by
  constructor
  · simp [is_new_assignment, and_assoc]
  · intro h
    simp only [is_new_assignment, Bool.and_eq_true, beq_iff_eq, Bool.or_eq_true,
      Bool.not_eq_eq_eq_not, Bool.not_true] at h
    obtain ⟨⟨⟨hs, ha⟩, he⟩, _⟩ := h
    have hval : ∃ a, u.assigneeName = some (some a) := by
      unfold jtruthy at ha
      match hm : u.assigneeName with
      | some (some a) => exact ⟨a, rfl⟩
      | some none => rw [hm] at ha; simp at ha
      | none => rw [hm] at ha; simp at ha
    obtain ⟨a, hA⟩ := hval
    have hst : u.status = some (some "In Use") := by
      unfold jget at hs
      match hm : u.status with
      | some v => rw [hm] at hs; simp at hs; rw [hs]
      | none => rw [hm] at hs; simp at hs
    simp [is_new_assignment, applyUpdate, setField, hst, hA, jget]

/-- Concrete instantiation of `claim1_assignment_edge`: the transition
In Stock -> In Use with assignee "A" fires, and the identical update applied
to the resulting record does not fire again. -/
theorem claim1_witness :
    is_new_assignment ⟨some "In Stock", none⟩
      ⟨some (some "In Use"), some (some "A"), some (some "a@x.com")⟩ = true ∧
    is_new_assignment
      (applyUpdate ⟨some "In Stock", none⟩
        ⟨some (some "In Use"), some (some "A"), some (some "a@x.com")⟩)
      ⟨some (some "In Use"), some (some "A"), some (some "a@x.com")⟩ = false := by
  refine ⟨by decide, ?_⟩
  exact (claim1_assignment_edge ⟨some "In Stock", none⟩
    ⟨some (some "In Use"), some (some "A"), some (some "a@x.com")⟩).2 (by decide)

/-- C2 -- counterexample: a partial update that supplies a damageDescription
but no status, applied to a record whose status is "In Stock", leaves a
record whose status is not Damaged yet whose damageDescription is non-null,
so the claimed invariant fails. -/
theorem claim2_counterexample :
    (apply_equipment_update ⟨some EqStatus.inStock, none⟩
        ⟨none, some (some "screen cracked")⟩).status ≠ some EqStatus.damaged ∧
    (apply_equipment_update ⟨some EqStatus.inStock, none⟩
        ⟨none, some (some "screen cracked")⟩).damageDescription ≠ none := by
  decide

/-- C2 (amended) -- when an update supplies a non-null status other than
Damaged, the updated record's damageDescription is null, regardless of any
damageDescription the caller supplied. -/
theorem claim2_amended (r : EqRecD) (ud : EqUpdD) (s : EqStatus)
    (hs : ud.status = some (some s)) (hd : s ≠ EqStatus.damaged) :
    (apply_equipment_update r ud).damageDescription = none := by
  simp [apply_equipment_update, clear_damage, hs, hd, setField]

/-- Concrete instantiation of `claim2_amended`: setting status to "In Stock"
while supplying a damageDescription still nulls the field. -/
theorem claim2_witness :
    (apply_equipment_update ⟨some EqStatus.damaged, some "old note"⟩
        ⟨some (some EqStatus.inStock), some (some "new note")⟩).damageDescription = none :=
  claim2_amended ⟨some EqStatus.damaged, some "old note"⟩
    ⟨some (some EqStatus.inStock), some (some "new note")⟩
    EqStatus.inStock rfl (by decide)

/-- C4 -- a create whose (non-empty) serial number already appears on any
existing record, soft-deleted ones included, fails with the Conflict error
and inserts nothing (the error result carries no new collection). -/
theorem claim4_duplicate_serial (user : AuthUser) (eq : EqCreate)
    (db : List EqDoc) (ts : String) (s : String)
    (hrole : check_role user ["Admin", "Editor"] = true)
    (hs : eq.serialNumber = some s) (hne : s ≠ "")
    (hex : ∃ r ∈ db, r.serialNumber = some s) :
    create_equipment user eq db ts =
      .error ⟨400, "Serial Number already exists. Please use a unique serial number."⟩ := by
  have hc : serialConflict eq.serialNumber db = true := by
    obtain ⟨r, hr, hsn⟩ := hex
    simp [serialConflict, hs, hne, List.any_eq_true]
    exact ⟨r, hr, hsn⟩
  simp [create_equipment, hrole, hc]

/-- Concrete instantiation of `claim4_duplicate_serial`: the only existing
record carrying serial "SN1" is soft-deleted, and the create still fails
with the Conflict error. -/
theorem claim4_witness :
    create_equipment ⟨"u1", "Admin"⟩ ⟨"Laptop", EqStatus.inStock, some "SN1"⟩
      [⟨"LAP-001-00000", "Laptop", EqStatus.removed, some "SN1", true⟩] "1700.78901" =
      .error ⟨400, "Serial Number already exists. Please use a unique serial number."⟩ :=
  claim4_duplicate_serial ⟨"u1", "Admin"⟩ ⟨"Laptop", EqStatus.inStock, some "SN1"⟩
    [⟨"LAP-001-00000", "Laptop", EqStatus.removed, some "SN1", true⟩] "1700.78901" "SN1"
    (by decide) rfl (by decide)
    ⟨⟨"LAP-001-00000", "Laptop", EqStatus.removed, some "SN1", true⟩, by simp, rfl⟩

/-- C5 -- counterexample: a create whose category is the empty string
succeeds with asset tag "OTH-001-…", while the claimed format (first three
letters of the category uppercased) would give "-001-…". -/
theorem claim5_counterexample :
    create_equipment ⟨"u1", "Admin"⟩ ⟨"", EqStatus.inStock, none⟩ [] "1700.78901" =
      .ok (⟨"OTH-001-78901", "", EqStatus.inStock, none, false⟩,
        [⟨"OTH-001-78901", "", EqStatus.inStock, none, false⟩]) ∧
    "OTH-001-78901" ≠ specAssetTag "" 0 "1700.78901" := by
  constructor
  · rfl
  · decide

/-- C5 (amended) -- for every create with a non-empty category passing the
role and duplicate-serial checks, the created document's asset tag equals
the spec's format: first three letters of the category uppercased, hyphen,
category count plus one zero-filled to three digits, hyphen, the
five-character time-derived suffix. -/
theorem claim5_amended (user : AuthUser) (eq : EqCreate) (db : List EqDoc)
    (ts : String)
    (hrole : check_role user ["Admin", "Editor"] = true)
    (hnc : serialConflict eq.serialNumber db = false)
    (hcat : eq.category ≠ "") :
    ∃ doc db2, create_equipment user eq db ts = .ok (doc, db2) ∧
      doc.assetId = specAssetTag eq.category (countCat db eq.category) ts ∧
      db2 = db ++ [doc] := by
  refine ⟨⟨gen_asset_id eq.category (countCat db eq.category) ts, eq.category, eq.status,
      eq.serialNumber, false⟩,
    db ++ [⟨gen_asset_id eq.category (countCat db eq.category) ts, eq.category, eq.status,
      eq.serialNumber, false⟩], ?_, ?_, rfl⟩
  · simp [create_equipment, hrole, hnc]
  · simp [gen_asset_id, specAssetTag, prefixPart, hcat]

/-- Concrete instantiation of `claim5_amended`: the first create in category
"Lap" yields the tag "LAP-001-78901", matching the LAP-001-XXXXX pattern. -/
theorem claim5_witness :
    (∃ doc db2,
      create_equipment ⟨"u1", "Admin"⟩ ⟨"Lap", EqStatus.inStock, none⟩ [] "1700.78901" =
        .ok (doc, db2) ∧
      doc.assetId = specAssetTag "Lap" (countCat [] "Lap") "1700.78901" ∧
      db2 = [] ++ [doc]) ∧
    specAssetTag "Lap" 0 "1700.78901" = "LAP-001-78901" := by
  constructor
  · exact claim5_amended ⟨"u1", "Admin"⟩ ⟨"Lap", EqStatus.inStock, none⟩ [] "1700.78901"
      (by decide) (by decide) (by decide)
  · decide

/-- C3 -- counterexample: an Admin deleting their own user id gets HTTP 400
("Cannot delete your own account"), not the claimed 403 Forbidden. -/
theorem claim3_counterexample :
    delete_user ⟨"507f1f77bcf86cd799439011", "Admin"⟩ "507f1f77bcf86cd799439011"
      [("507f1f77bcf86cd799439011",
        ⟨some "Root", some "admin@example.com", some "h1", some "Admin"⟩)] =
      .error ⟨400, "Cannot delete your own account"⟩ ∧
    (400 : Nat) ≠ 403 := by
  exact ⟨rfl, by decide⟩

/-- C3 (amended) -- an Admin calling delete on their own user id always
fails, with HTTP 400 and detail "Cannot delete your own account", before the
collection is touched, so the user record is not deleted. -/
theorem claim3_amended (cu : AuthUser) (db : UsersDB) (hrole : cu.role = "Admin") :
    delete_user cu cu.id db = .error ⟨400, "Cannot delete your own account"⟩ := by
  simp [delete_user, hrole]

/-- Concrete instantiation of `claim3_amended`. -/
theorem claim3_witness :
    delete_user ⟨"507f1f77bcf86cd799439011", "Admin"⟩ "507f1f77bcf86cd799439011" [] =
      .error ⟨400, "Cannot delete your own account"⟩ :=
  claim3_amended ⟨"507f1f77bcf86cd799439011", "Admin"⟩ [] rfl

/-- C6 -- reset tokens are single-use: after a resetPassword call has
succeeded with a token, any second call presenting the same token fails with
the invalid-or-expired error (the token was deleted on consumption). -/
theorem claim6_single_use (now now2 : Nat) (email newPw email2 newPw2 token : String)
    (hash hash2 : String → String) (st : RPState)
    (h : (reset_password now email token newPw hash st).1 = .ok ()) :
    (reset_password now2 email2 token newPw2 hash2
        (reset_password now email token newPw hash st).2).1 =
      .error ⟨400, "Invalid or expired reset token"⟩ := by
  have hst := reset_password_ok_state now email token newPw hash st h
  have hnone : ((reset_password now email token newPw hash st).2).tokens token = none := by
    rw [hst]
    simp [deleteTok]
  rw [reset_password_unknown now2 email2 token newPw2 hash2 _ hnone]

/-- Concrete instantiation of `claim6_single_use`: token "tok1" is consumed
by a successful reset, then rejected on the second presentation. -/
theorem claim6_witness :
    (reset_password 60 "a@x.com" "tok1" "pw2" (fun s => String.append "H2" s)
        (reset_password 50 "a@x.com" "tok1" "newpw" (fun s => String.append "H" s)
          ⟨fun k => if k = "tok1" then some ⟨"a@x.com", 100⟩ else none,
            [⟨"a@x.com", "old", none, none⟩]⟩).2).1 =
      .error ⟨400, "Invalid or expired reset token"⟩ :=
  claim6_single_use 50 60 "a@x.com" "newpw" "a@x.com" "pw2" "tok1"
    (fun s => String.append "H" s) (fun s => String.append "H2" s)
    ⟨fun k => if k = "tok1" then some ⟨"a@x.com", 100⟩ else none,
      [⟨"a@x.com", "old", none, none⟩]⟩ rfl

/-- C7 -- presenting a token past its expiry fails with the expired-token
error, leaves the users collection (hence every password) unchanged, and
removes the token from the store as a side effect of the failed attempt. -/
theorem claim7_expired (now : Nat) (email token newPw : String)
    (hash : String → String) (st : RPState) (td : TokenData)
    (hm : st.tokens token = some td) (hexp : td.expiry < now) :
    (reset_password now email token newPw hash st).1 =
      .error ⟨400, "Reset token has expired"⟩ ∧
    ((reset_password now email token newPw hash st).2).users = st.users ∧
    ((reset_password now email token newPw hash st).2).tokens token = none := by
  refine ⟨?_, ?_, ?_⟩ <;> simp [reset_password, hm, hexp, deleteTok]

/-- Concrete instantiation of `claim7_expired`: a token that expired at
instant 100, presented at instant 200. -/
theorem claim7_witness :
    (reset_password 200 "a@x.com" "tok1" "pw" (fun s => s)
        ⟨fun k => if k = "tok1" then some ⟨"a@x.com", 100⟩ else none,
          [⟨"a@x.com", "old", none, none⟩]⟩).1 =
      .error ⟨400, "Reset token has expired"⟩ ∧
    ((reset_password 200 "a@x.com" "tok1" "pw" (fun s => s)
        ⟨fun k => if k = "tok1" then some ⟨"a@x.com", 100⟩ else none,
          [⟨"a@x.com", "old", none, none⟩]⟩).2).users =
      [⟨"a@x.com", "old", none, none⟩] ∧
    ((reset_password 200 "a@x.com" "tok1" "pw" (fun s => s)
        ⟨fun k => if k = "tok1" then some ⟨"a@x.com", 100⟩ else none,
          [⟨"a@x.com", "old", none, none⟩]⟩).2).tokens "tok1" = none :=
  claim7_expired 200 "a@x.com" "tok1" "pw" (fun s => s)
    ⟨fun k => if k = "tok1" then some ⟨"a@x.com", 100⟩ else none,
      [⟨"a@x.com", "old", none, none⟩]⟩ ⟨"a@x.com", 100⟩ rfl (by decide)

/-- C8 -- when the assignment notification fires, the update response is the
updated record and is identical whatever the rendering/delivery outcomes;
the background task never lets an exception escape; and neither the render
nor the send is ever attempted more than once (no retry). -/
theorem claim8_swallowed (o : EqRecord) (u : EqUpdate) (env env2 : BgEnv) :
    (update_equipment_handler (some o) u env).1 = .ok (applyUpdate o u) ∧
    (update_equipment_handler (some o) u env).1 =
      (update_equipment_handler (some o) u env2).1 ∧
    (bg_task env).1 = false ∧
    (bg_task env).2.count BgOp.send ≤ 1 ∧
    (bg_task env).2.count BgOp.render ≤ 1 := by
  refine ⟨?_, ?_, ?_, ?_, ?_⟩
  · cases h : is_new_assignment o u <;> simp [update_equipment_handler, h]
  · cases h : is_new_assignment o u <;> simp [update_equipment_handler, h]
  · obtain ⟨r, sd, rm⟩ := env
    cases r <;> rfl
  · obtain ⟨r, sd, rm⟩ := env
    cases r
    · show List.count BgOp.send [BgOp.render] ≤ 1
      decide
    · show List.count BgOp.send [BgOp.render, BgOp.send, BgOp.remove] ≤ 1
      decide
  · obtain ⟨r, sd, rm⟩ := env
    cases r
    · show List.count BgOp.render [BgOp.render] ≤ 1
      decide
    · show List.count BgOp.render [BgOp.render, BgOp.send, BgOp.remove] ≤ 1
      decide

/-- C9 -- no user-management response carries a password: listed users have
the password popped (or excluded by the projection), the user-update
response pops it, and the login payload is built from id, email and role
only. -/
theorem claim9_no_password (dbUsers : List Doc) (updatedUser u : Doc) :
    ((get_all_users dbUsers).all fun d => lookupKey d "password" == none) = true ∧
    lookupKey (update_user_response updatedUser) "password" = none ∧
    lookupKey (login_user_data u) "password" = none := by
  refine ⟨?_, lookupKey_popKey updatedUser "password", ?_⟩
  · rw [List.all_eq_true]
    intro x hx
    simp only [get_all_users, List.mem_map] at hx
    obtain ⟨d, _, rfl⟩ := hx
    simp [lookupKey_popKey]
  · simp [login_user_data, lookupKey]

/-- C10 -- a user update leaves the stored password hash unchanged whenever
the payload omits the password or supplies a null or empty one; it stores
the re-hash exactly when a non-empty password is supplied; and supplied
name/email/role fields are applied while omitted ones persist. -/
theorem claim10_password_frame (cu : AuthUser) (uid : String) (u : UserUpd)
    (db : UsersDB) (hash : String → String) (su : StoredUser)
    (hrole : cu.role = "Admin") (hid : isValidObjectId uid = true)
    (hex : lookupEntry db uid = some su)
    (hclash : ∀ ev, (buildUpdate u hash).email = some ev → emailClash db uid ev = false) :
    update_user cu uid u db hash = .ok (setUserIn db uid (buildUpdate u hash)) ∧
    lookupEntry (setUserIn db uid (buildUpdate u hash)) uid =
      some (applyUserSet su (buildUpdate u hash)) ∧
    ((u.password = none ∨ u.password = some none ∨ u.password = some (some "")) →
      (applyUserSet su (buildUpdate u hash)).password = su.password) ∧
    (∀ p, u.password = some (some p) → p ≠ "" →
      (applyUserSet su (buildUpdate u hash)).password = some (hash p)) ∧
    (∀ v, u.name = some v → (applyUserSet su (buildUpdate u hash)).name = v) ∧
    (u.name = none → (applyUserSet su (buildUpdate u hash)).name = su.name) ∧
    (∀ v, u.email = some v → (applyUserSet su (buildUpdate u hash)).email = v) ∧
    (∀ v, u.role = some v → (applyUserSet su (buildUpdate u hash)).role = v) := by
  refine ⟨?_, lookupEntry_setUserIn db uid _ su hex, ?_, ?_, ?_, ?_, ?_, ?_⟩
  · cases hme : (buildUpdate u hash).email with
    | none => simp [update_user, hrole, hid, hex, hme]
    | some ev => simp [update_user, hrole, hid, hex, hme, hclash ev hme]
  · rintro (hp | hp | hp) <;> simp [applyUserSet, buildUpdate, setField, hp]
  · intro p hp hne
    simp [applyUserSet, buildUpdate, setField, hp, hne]
  · intro v hv
    simp [applyUserSet, buildUpdate, setField, hv]
  · intro hv
    simp [applyUserSet, buildUpdate, setField, hv]
  · intro v hv
    simp [applyUserSet, buildUpdate, setField, hv]
  · intro v hv
    simp [applyUserSet, buildUpdate, setField, hv]

/-- Concrete instantiation of `claim10_password_frame`: an update supplying
only a new name leaves the stored hash "oldhash" in place and applies the
name. -/
theorem claim10_witness :
    update_user ⟨"adminid", "Admin"⟩ "507f1f77bcf86cd799439011"
      ⟨some (some "Bobby"), none, none, none⟩
      [("507f1f77bcf86cd799439011",
        ⟨some "Bob", some "b@x.com", some "oldhash", some "Viewer"⟩)]
      (fun s => String.append "H" s) =
      .ok (setUserIn
        [("507f1f77bcf86cd799439011",
          ⟨some "Bob", some "b@x.com", some "oldhash", some "Viewer"⟩)]
        "507f1f77bcf86cd799439011"
        (buildUpdate ⟨some (some "Bobby"), none, none, none⟩
          (fun s => String.append "H" s))) ∧
    lookupEntry (setUserIn
        [("507f1f77bcf86cd799439011",
          ⟨some "Bob", some "b@x.com", some "oldhash", some "Viewer"⟩)]
        "507f1f77bcf86cd799439011"
        (buildUpdate ⟨some (some "Bobby"), none, none, none⟩
          (fun s => String.append "H" s))) "507f1f77bcf86cd799439011" =
      some (applyUserSet ⟨some "Bob", some "b@x.com", some "oldhash", some "Viewer"⟩
        (buildUpdate ⟨some (some "Bobby"), none, none, none⟩
          (fun s => String.append "H" s))) ∧
    (((⟨some (some "Bobby"), none, none, none⟩ : UserUpd).password = none ∨
      (⟨some (some "Bobby"), none, none, none⟩ : UserUpd).password = some none ∨
      (⟨some (some "Bobby"), none, none, none⟩ : UserUpd).password = some (some "")) →
      (applyUserSet ⟨some "Bob", some "b@x.com", some "oldhash", some "Viewer"⟩
        (buildUpdate ⟨some (some "Bobby"), none, none, none⟩
          (fun s => String.append "H" s))).password =
        (⟨some "Bob", some "b@x.com", some "oldhash", some "Viewer"⟩ : StoredUser).password) ∧
    (∀ p, (⟨some (some "Bobby"), none, none, none⟩ : UserUpd).password = some (some p) →
      p ≠ "" →
      (applyUserSet ⟨some "Bob", some "b@x.com", some "oldhash", some "Viewer"⟩
        (buildUpdate ⟨some (some "Bobby"), none, none, none⟩
          (fun s => String.append "H" s))).password = some (String.append "H" p)) ∧
    (∀ v, (⟨some (some "Bobby"), none, none, none⟩ : UserUpd).name = some v →
      (applyUserSet ⟨some "Bob", some "b@x.com", some "oldhash", some "Viewer"⟩
        (buildUpdate ⟨some (some "Bobby"), none, none, none⟩
          (fun s => String.append "H" s))).name = v) ∧
    ((⟨some (some "Bobby"), none, none, none⟩ : UserUpd).name = none →
      (applyUserSet ⟨some "Bob", some "b@x.com", some "oldhash", some "Viewer"⟩
        (buildUpdate ⟨some (some "Bobby"), none, none, none⟩
          (fun s => String.append "H" s))).name =
        (⟨some "Bob", some "b@x.com", some "oldhash", some "Viewer"⟩ : StoredUser).name) ∧
    (∀ v, (⟨some (some "Bobby"), none, none, none⟩ : UserUpd).email = some v →
      (applyUserSet ⟨some "Bob", some "b@x.com", some "oldhash", some "Viewer"⟩
        (buildUpdate ⟨some (some "Bobby"), none, none, none⟩
          (fun s => String.append "H" s))).email = v) ∧
    (∀ v, (⟨some (some "Bobby"), none, none, none⟩ : UserUpd).role = some v →
      (applyUserSet ⟨some "Bob", some "b@x.com", some "oldhash", some "Viewer"⟩
        (buildUpdate ⟨some (some "Bobby"), none, none, none⟩
          (fun s => String.append "H" s))).role = v) :=
  claim10_password_frame ⟨"adminid", "Admin"⟩ "507f1f77bcf86cd799439011"
    ⟨some (some "Bobby"), none, none, none⟩
    [("507f1f77bcf86cd799439011",
      ⟨some "Bob", some "b@x.com", some "oldhash", some "Viewer"⟩)]
    (fun s => String.append "H" s)
    ⟨some "Bob", some "b@x.com", some "oldhash", some "Viewer"⟩
    rfl (by decide) rfl (by intro ev h; exact Option.noConfusion h)

end ITAM
